import Mathlib

/-!
Verification of the insight-stream prompt-composition, transcript-cache and
LLM-orchestration core against its natural-language specification.

The prompt composer (`create_prompt`, role registry, the three BASE templates)
is embedded from the backend code quoted in the repository reports
(`src/unnamed/part_001`, `src/LLM_OPTIMIZATION_APPLIED.md`); the frontend
utilities (`timeUtils.ts`, `ChatPanel.tsx`) are embedded from the TypeScript
sources.  Components whose implementation file is not in the repository
snapshot (the transcript cache body, the translation backend, the dual
generation flow) are modelled from the specification and marked as such.
-/

set_option maxRecDepth 100000

namespace InsightStream

/-- One parsed piece of a Python format string: a literal chunk, the `role`
replacement field, or the `transcript` replacement field.  This mirrors how
`str.format` parses a template into literals and named fields. -/
inductive TemplatePart where
  | lit (s : String)
  | roleSlot
  | transcriptSlot
deriving DecidableEq

/-- A prompt template is the parsed form of one of the backend's Python
format strings (`BASE_OVERVIEW`, `BASE_DETAIL_DIALOGUE`,
`BASE_DETAIL_PRESENTATION`). -/
abbrev FormatTemplate := List TemplatePart

/-- Rendering of a single template part under `str.format`-style substitution
of the `role` and `transcript` fields. -/
def renderPart (role transcript : String) : TemplatePart → String
  | .lit s => s
  | .roleSlot => role
  | .transcriptSlot => transcript

/-- `pyFormat t role transcript` is `template.format(role=role,
transcript=transcript)` for the template whose parsed form is `t`: the
concatenation of the literal chunks with the two field values substituted. -/
def pyFormat (role transcript : String) : FormatTemplate → String
  | [] => ""
  | p :: ps => renderPart role transcript p ++ pyFormat role transcript ps

/-- The literal chunk every template starts with, up to the `role` field. -/
def ROLE_HEADER : String := "[ROLE]\n"

/-- Literal chunk of `BASE_OVERVIEW` between the `role` and `transcript`
fields, as printed in `src/LLM_OPTIMIZATION_APPLIED.md`. -/
def OVERVIEW_BODY : String :=
  "\n\n[INPUT]\n아래에는 두 명 이상이 참여한 대담, 인터뷰, 패널 토론, Q&A 세션의 원문 스크립트가 제공됩니다.\n구어체, 중복, 끼어들기, 즉흥 발언이 포함될 수 있습니다.\n\n[OBJECTIVE]\n- 이 스크립트의 핵심 내용과 인사이트에 대해 8줄 이내로 요약하시오.\n인사이트는 이 스크립트의 독자가 얻어갈 수 있는 정보와 통찰, 이 컨텐츠만의 차별화된 내용이나 관점이 담기는 것이 필요하다\n\n==========\n[TARGET SCRIPT]\n"

/-- Literal chunk of `BASE_DETAIL_DIALOGUE` between the `role` and
`transcript` fields, as printed in `src/LLM_OPTIMIZATION_APPLIED.md`. -/
def DETAIL_DIALOGUE_BODY : String :=
  "\n\n[INPUT]\n아래에는 두 명 이상이 참여한 대담, 인터뷰, 패널 토론, Q&A 세션의 원문 스크립트가 제공됩니다.\n\n[OBJECTIVE]\n# 상세 요약\n전체 스크립트를 아래 조건들에 따라 상세히 요약하시오.\n\n[OUTPUT REQUIREMENTS]\n* 화자별/발언순/주제별 상세 요약 (필수)\n   - 발언 순서를 유지한 채 요약하십시오.\n   - 각 발언은 반드시 화자를 명시하십시오.\n   - 각 대담의 내용을 소주제별로 그룹화하고, 소주제명 아래 해당되는 발언요약들을 넣으시오\n   - 중요한 메시지나 통찰을 담은 발언은 따옴표(\"\") 안에 굵은 글씨로 원문을 인용하며 강조하시오\n   - 이 부분 요약 본문의 내용은 전체 스크립트 내용 분량의 20% 정도가 되는 것을 목표하시오\n\n* 핵심 질문과 답변 정리 (필수)\n* 관점 차이 및 합의 지점 (조건부)\n* 상세 요약문을 끝까지 출력한 후 맨 뒤에는 \"(Summarized from Youtube)\"라는 문구를 추가하시오\n\n[STYLE GUIDELINES]\n- 회의록 + 리서치 노트 중간 톤\n- 화자 의도 왜곡 금지\n\n[CONSTRAINTS]\n- 화자 혼동 금지\n- 발언 순서 임의 변경 금지\n\n==========\n[TARGET SCRIPT]\n"

/-- Literal chunk of `BASE_DETAIL_PRESENTATION` between the `role` and
`transcript` fields, as printed in `src/LLM_OPTIMIZATION_APPLIED.md`. -/
def DETAIL_PRESENTATION_BODY : String :=
  "\n\n[INPUT]\n아래에는 단일 발표자 또는 소수의 발표자가 진행하는 강연, 발표, 세미나의 원문 스크립트가 제공됩니다.\n\n[OBJECTIVE]\n# 상세 요약\n전체 스크립트를 내용의 논리 구조와 메시지가 선명하게 드러나는 구조 중심 요약으로 작성하시오.\n\n[OUTPUT REQUIREMENTS]\n* 전체 강연 구조 요약 (필수)\n   - 발표의 논리 전개 구조를 목차 형태로 제시하십시오.\n   - 번호 기반 계층 구조를 사용하십시오. (1, 1.1, 1.2, 2, 2.1 ...)\n\n* 내용 순서별 상세 요약 (필수)\n   - 발표 순서를 유지한 채 내용을 요약하십시오.\n   - 소주제별로 그룹화하고, 각 소주제 아래 핵심 내용을 정리\n   - 전체 스크립트 분량의 20% 정도를 목표로 요약\n\n* 핵심 개념 및 프레임워크 정리 (필수)\n* 발표자의 핵심 메시지 및 결론 (필수)\n* 상세 요약문을 끝까지 출력한 후 맨 뒤에는 \"(Summarized from Youtube)\"라는 문구를 추가하시오\n\n[STYLE GUIDELINES]\n- 강의 노트 + 리서치 요약 톤\n- 논리 구조가 한눈에 보이도록 작성\n\n[CONSTRAINTS]\n- 시간 순 단순 나열 금지\n- 논리적 연결 없이 발언 나열 금지\n\n==========\n[TARGET SCRIPT]\n"

/-- `BASE_OVERVIEW` from `backend/app/core/prompts.py`, as printed in the
report `src/LLM_OPTIMIZATION_APPLIED.md`: the single overview template used
for every topic and every format.  The template text contains the fields
`role` and `transcript` exactly once each. -/
def BASE_OVERVIEW : FormatTemplate :=
  [ .lit ROLE_HEADER, .roleSlot, .lit OVERVIEW_BODY, .transcriptSlot ]

/-- `BASE_DETAIL_DIALOGUE` from `backend/app/core/prompts.py`, as printed in
the report `src/LLM_OPTIMIZATION_APPLIED.md`: the detail template for
dialogue-type content. -/
def BASE_DETAIL_DIALOGUE : FormatTemplate :=
  [ .lit ROLE_HEADER, .roleSlot, .lit DETAIL_DIALOGUE_BODY, .transcriptSlot ]

/-- `BASE_DETAIL_PRESENTATION` from `backend/app/core/prompts.py`, as printed
in the report `src/LLM_OPTIMIZATION_APPLIED.md`: the detail template for
presentation-type content. -/
def BASE_DETAIL_PRESENTATION : FormatTemplate :=
  [ .lit ROLE_HEADER, .roleSlot, .lit DETAIL_PRESENTATION_BODY, .transcriptSlot ]

/-- Role text of the `general` topic, from the role table in
`src/unnamed/part_001` (also the fallback role `self.roles[\"general\"]`). -/
def GENERAL_ROLE : String :=
  "대담·인터뷰·패널 토론을 분석하는 전문 에디터이자 회의·대화 기록을 구조화하는 리서치 애널리스트"

/-- The `self.roles` dictionary of `PromptGenerator` after the removal of the
`interview` and `lecture` entries (`src/unnamed/part_001`): the key set is the
one shown in the report's final snippet, the texts are the ones in the
report's role table.  The report elides the text of the `default` key; the
`general` text is used for it (it does not affect any claim). -/
def ROLES : List (String × String) :=
  [ ("general", GENERAL_ROLE),
    ("default", GENERAL_ROLE),
    ("tech", "최신 기술 트렌드와 엔지니어링 문맥을 깊이 이해하는 테크 전문 에디터이자 테크니컬 라이터"),
    ("business", "비즈니스 전략과 시장 동향을 분석하는 경영 컨설턴트이자 비즈니스 애널리스트"),
    ("ai", "AI/ML 분야의 기술적 깊이와 실용적 응용을 모두 이해하는 AI 리서치 애널리스트"),
    ("economy", "경제 현상과 금융 시장을 분석하는 이코노미스트이자 금융 애널리스트"),
    ("politics", "정치·사회 이슈를 객관적으로 분석하는 정책 연구원이자 사회 애널리스트"),
    ("daily", "일상 컨텐츠의 재미있고 중요한 순간들을 포착하는 컨텐츠 큐레이터") ]

/-- `role = self.roles.get(topic, self.roles[\"general\"])` from
`create_prompt` (`src/LLM_OPTIMIZATION_APPLIED.md`, core logic): look the
topic up in the role registry and fall back to the `general` role for an
unknown key. -/
def roleFor (topic : String) : String :=
  match ROLES.lookup topic with
  | some r => r
  | none => GENERAL_ROLE

/-- Template selection of `create_prompt` (`src/unnamed/part_001`, lines
11-21): `prompt_type == \"overview\"` always selects `BASE_OVERVIEW`;
otherwise `format_type == \"presentation\"` selects
`BASE_DETAIL_PRESENTATION` and anything else (dialogue or default) selects
`BASE_DETAIL_DIALOGUE`. -/
def templateFor (prompt_type format_type : String) : FormatTemplate :=
  if prompt_type = "overview" then
    BASE_OVERVIEW
  else
    if format_type = "presentation" then
      BASE_DETAIL_PRESENTATION
    else
      BASE_DETAIL_DIALOGUE

/-- `PromptGenerator.create_prompt(topic, format_type, transcript,
prompt_type)` from `src/unnamed/part_001` lines 11-21: resolve the role,
select the template and substitute `role` and `transcript` into it. -/
def create_prompt (topic format_type transcript prompt_type : String) : String :=
  pyFormat (roleFor topic) transcript (templateFor prompt_type format_type)

/-- `format_type = request.format_type or \"dialogue\"` from
`endpoints.py` as quoted in `src/LLM_OPTIMIZATION_APPLIED.md`: an absent
(`none`) or empty format kind defaults to `\"dialogue\"` before
`create_prompt` is called. -/
def resolve_format_type (format_type : Option String) : String :=
  match format_type with
  | none => "dialogue"
  | some f => if f = "" then "dialogue" else f

/-- `category = request.category or \"general\"` from `endpoints.py` as
quoted in `src/LLM_OPTIMIZATION_APPLIED.md`. -/
def resolve_category (category : Option String) : String :=
  match category with
  | none => "general"
  | some c => if c = "" then "general" else c

/-- Claim C1: for every formatKind other than "presentation" (including
absent or unknown values), `templateFor` on a detail prompt returns the
dialogue template; on "presentation" it returns the presentation template;
and for every formatKind whatsoever, the overview prompt always uses the
single overview template. -/
theorem template_selection_deterministic :
    (∀ fmt : String, fmt ≠ "presentation" →
      templateFor "detail" fmt = BASE_DETAIL_DIALOGUE) ∧
    templateFor "detail" "presentation" = BASE_DETAIL_PRESENTATION ∧
    (∀ fmt : String, templateFor "overview" fmt = BASE_OVERVIEW) ∧
    (∀ fmt : Option String, fmt ≠ some "presentation" →
      templateFor "detail" (resolve_format_type fmt) = BASE_DETAIL_DIALOGUE) := by
  refine ⟨?_, ?_, ?_, ?_⟩
  · intro fmt h
    simp [templateFor, h]
  · simp [templateFor]
  · intro fmt
    simp [templateFor]
  · intro fmt h
    match fmt with
    | none => simp [resolve_format_type, templateFor]
    | some f =>
        by_cases hf : f = ""
        · simp [resolve_format_type, hf, templateFor]
        · have hfp : f ≠ "presentation" := by
            intro hc
            exact h (by rw [hc])
          simp [resolve_format_type, hf, templateFor, hfp]

/-- Witness for C1: concrete format kinds evaluated through the theorem. -/
theorem template_selection_deterministic_witness :
    templateFor "detail" "dialogue" = BASE_DETAIL_DIALOGUE ∧
    templateFor "detail" (resolve_format_type none) = BASE_DETAIL_DIALOGUE := by
  exact ⟨template_selection_deterministic.1 "dialogue" (by decide),
    template_selection_deterministic.2.2.2 none (by simp)⟩

/-- Boolean test that the first list is an initial segment of the second. -/
def isPrefOf : List Char → List Char → Bool
  | [], _ => true
  | _ :: _, [] => false
  | c :: p, x :: xs => c == x && isPrefOf p xs

/-- Boolean test that `p` occurs as a contiguous run inside `xs`. -/
def containsSub (p : List Char) : List Char → Bool
  | [] => isPrefOf p []
  | x :: xs => isPrefOf p (x :: xs) || containsSub p xs

/-- The literal `\x7brole\x7d` placeholder token. -/
def ROLE_PLACEHOLDER : String := "{role}"

/-- The literal `\x7btranscript\x7d` placeholder token. -/
def TRANSCRIPT_PLACEHOLDER : String := "{transcript}"

theorem isPrefOf_append_self (p r : List Char) : isPrefOf p (p ++ r) = true := by
  induction p with
  | nil => rfl
  | cons c cs ih => simp [isPrefOf, ih]

theorem containsSub_self_append (p r : List Char) : containsSub p (p ++ r) = true := by
  match p with
  | [] =>
      match r with
      | [] => rfl
      | x :: xs => simp [containsSub, isPrefOf]
  | c :: cs =>
      have h1 := isPrefOf_append_self (c :: cs) r
      simp only [List.cons_append] at h1 ⊢
      simp [containsSub, h1]

theorem containsSub_of_middle (p l r : List Char) :
    containsSub p (l ++ (p ++ r)) = true := by
  induction l with
  | nil => simpa using containsSub_self_append p r
  | cons a as ih => simp [containsSub, ih]

theorem containsSub_append_left (c : Char) (p xs ys : List Char) (h : c ∉ xs) :
    containsSub (c :: p) (xs ++ ys) = containsSub (c :: p) ys := by
  induction xs with
  | nil => rfl
  | cons x rest ih =>
      have hcx : (c == x) = false := by
        simp only [List.mem_cons, not_or] at h
        simp [h.1]
      have hrest : c ∉ rest := by
        simp only [List.mem_cons, not_or] at h
        exact h.2
      rw [List.cons_append, containsSub, isPrefOf, hcx]
      simp [ih hrest]

theorem lookup_mem_snd (l : List (String × String)) (k v : String)
    (h : l.lookup k = some v) : v ∈ l.map Prod.snd := by
  induction l with
  | nil => simp [List.lookup] at h
  | cons a as ih =>
      obtain ⟨k1, v1⟩ := a
      rw [List.lookup] at h
      by_cases hk : k == k1
      · rw [hk] at h
        simp only [Option.some.injEq] at h
        simp [← h]
      · rw [Bool.not_eq_true] at hk
        rw [hk] at h
        simp only [List.map_cons, List.mem_cons]
        exact Or.inr (ih h)

/-- No role text in the registry (nor the fallback) contains a brace. -/
theorem roleFor_no_brace (topic : String) : '\x7b' ∉ (roleFor topic).data := by
  unfold roleFor
  match h : ROLES.lookup topic with
  | none => decide
  | some r =>
      have hmem : r ∈ ROLES.map Prod.snd := lookup_mem_snd ROLES topic r h
      simp only [ROLES, List.map_cons, List.map_nil, List.mem_cons,
        List.not_mem_nil, or_false] at hmem
      rcases hmem with h1 | h1 | h1 | h1 | h1 | h1 | h1 | h1 <;>
        (subst h1; decide)

theorem create_prompt_data (topic format_type transcript prompt_type : String) :
    ∃ A B : String,
      (create_prompt topic format_type transcript prompt_type).data =
        (A.data ++ (roleFor topic).data ++ B.data) ++ transcript.data ∧
      '\x7b' ∉ A.data ∧ '\x7b' ∉ B.data := by
  have hd : ∀ a b : String, (a ++ b).data = a.data ++ b.data := fun a b => rfl
  unfold create_prompt templateFor
  by_cases hp : prompt_type = "overview"
  · refine ⟨ROLE_HEADER, OVERVIEW_BODY, ?_, by decide, by decide⟩
    simp only [hp, if_pos rfl, BASE_OVERVIEW, pyFormat, renderPart, hd]
    simp
  · by_cases hf : format_type = "presentation"
    · refine ⟨ROLE_HEADER, DETAIL_PRESENTATION_BODY, ?_, by decide, by decide⟩
      simp only [if_neg hp, hf, if_pos rfl, BASE_DETAIL_PRESENTATION, pyFormat,
        renderPart, hd]
      simp
    · refine ⟨ROLE_HEADER, DETAIL_DIALOGUE_BODY, ?_, by decide, by decide⟩
      simp only [if_neg hp, if_neg hf, BASE_DETAIL_DIALOGUE, pyFormat,
        renderPart, hd]
      simp

/-- Claim C2 as stated is false: `str.format` substitutes the template's
fields but copies the transcript value verbatim, so a transcript that itself
contains the text `\x7brole\x7d` survives into the composed prompt.  Concrete
counterexample: topic `general`, format `dialogue`, overview prompt, with the
six-character transcript `\x7brole\x7d`. -/
theorem compose_placeholder_counterexample :
    containsSub ROLE_PLACEHOLDER.data
      (create_prompt "general" "dialogue" ROLE_PLACEHOLDER "overview").data = true := by
  obtain ⟨A, B, heq, _, _⟩ :=
    create_prompt_data "general" "dialogue" ROLE_PLACEHOLDER "overview"
  rw [heq]
  have : ROLE_PLACEHOLDER.data = ROLE_PLACEHOLDER.data ++ [] := by simp
  rw [this]
  exact containsSub_of_middle _ _ _

/-- Claim C2, amended: for every topicKey, formatKind, promptKind and every
transcript that does not itself contain a literal `\x7brole\x7d` or
`\x7btranscript\x7d` substring, the composed prompt contains neither
placeholder token: the template's own fields are always substituted away. -/
theorem compose_no_residual_placeholder
    (topic format_type transcript prompt_type : String)
    (hr : containsSub ROLE_PLACEHOLDER.data transcript.data = false)
    (ht : containsSub TRANSCRIPT_PLACEHOLDER.data transcript.data = false) :
    containsSub ROLE_PLACEHOLDER.data
      (create_prompt topic format_type transcript prompt_type).data = false ∧
    containsSub TRANSCRIPT_PLACEHOLDER.data
      (create_prompt topic format_type transcript prompt_type).data = false := by
  obtain ⟨A, B, heq, hA, hB⟩ :=
    create_prompt_data topic format_type transcript prompt_type
  have hpre : '\x7b' ∉ A.data ++ (roleFor topic).data ++ B.data := by
    intro hmem
    rcases List.mem_append.mp hmem with hm | hm
    · rcases List.mem_append.mp hm with hm2 | hm2
      · exact hA hm2
      · exact roleFor_no_brace topic hm2
    · exact hB hm
  constructor
  · rw [heq]
    have hshape : ROLE_PLACEHOLDER.data = '\x7b' :: "role\x7d".data := rfl
    rw [hshape, containsSub_append_left _ _ _ _ hpre, ← hshape]
    exact hr
  · rw [heq]
    have hshape : TRANSCRIPT_PLACEHOLDER.data = '\x7b' :: "transcript\x7d".data := rfl
    rw [hshape, containsSub_append_left _ _ _ _ hpre, ← hshape]
    exact ht

/-- Witness for the amended C2: a concrete placeholder-free transcript. -/
theorem compose_no_residual_placeholder_witness :
    containsSub ROLE_PLACEHOLDER.data "hello world".data = false ∧
    containsSub ROLE_PLACEHOLDER.data
      (create_prompt "ai" "presentation" "hello world" "detail").data = false := by
  exact ⟨by decide,
    (compose_no_residual_placeholder "ai" "presentation" "hello world" "detail"
      (by decide) (by decide)).1⟩

/-- Claim C7: `roleFor` is a pure lookup: a registered topic returns its
registered role text, and an unknown topic falls back to the role registered
for the designated default topic `general`; being a total function it has no
side effects and no failure mode beyond this fallback. -/
theorem roleFor_pure_lookup :
    (∀ topic r, ROLES.lookup topic = some r → roleFor topic = r) ∧
    (∀ topic, ROLES.lookup topic = none → roleFor topic = roleFor "general") ∧
    roleFor "general" = GENERAL_ROLE := by
  refine ⟨?_, ?_, by decide⟩
  · intro topic r h
    unfold roleFor
    rw [h]
  · intro topic h
    unfold roleFor
    rw [h]
    decide

/-- Witness for C7: a registered topic and an unknown topic evaluated through
the theorem. -/
theorem roleFor_pure_lookup_witness :
    roleFor "daily" = "일상 컨텐츠의 재미있고 중요한 순간들을 포착하는 컨텐츠 큐레이터" ∧
    roleFor "cooking" = roleFor "general" := by
  exact ⟨roleFor_pure_lookup.1 "daily" _ (by decide),
    roleFor_pure_lookup.2.1 "cooking" (by decide)⟩

/-- Modelled from the spec: the `TranscriptCache` of `backend/app/core/cache.py`
is described but not included in the repository snapshot
(`src/TRANSCRIPT_CACHE_OPTIMIZATION_COMPLETED.md` lines 30-38 and spec 4.4).
One cache entry: raw transcript text plus creation and expiry stamps. -/
structure TranscriptCacheEntry where
  rawText : String
  createdAt : Nat
  expiresAt : Nat
deriving DecidableEq

/-- Modelled from the spec: the in-memory cache is a map from content id to
entry (the Python dict of `TranscriptCache`); time is an explicit natural
number of seconds passed to each operation. -/
def TranscriptCache := String → Option TranscriptCacheEntry

/-- The fixed TTL: 24 hours, in seconds
(`src/TRANSCRIPT_CACHE_OPTIMIZATION_COMPLETED.md`: \"TTL (Time-To-Live):
24시간 자동 만료\"). -/
def CACHE_TTL : Nat := 24 * 60 * 60

/-- The empty cache. -/
def emptyCache : TranscriptCache := fun _ => none

/-- Modelled from the spec: `TranscriptCache.set(video_id, transcript)` stores
or overwrites the entry for the id, stamping `createdAt = now` and
`expiresAt = now + TTL` (spec 4.4 `put`). -/
def cache_set (c : TranscriptCache) (now : Nat) (id text : String) : TranscriptCache :=
  fun k => if k = id then some ⟨text, now, now + CACHE_TTL⟩ else c k

/-- Modelled from the spec: `TranscriptCache.get(video_id)` returns the text
only if `now <= expiresAt` and otherwise behaves as absent, with no sweep
required (spec 4.4 `get`; the report: \"캐시 조회 (만료 시 None 반환)\"). -/
def cache_get (c : TranscriptCache) (now : Nat) (id : String) : Option String :=
  match c id with
  | none => none
  | some e => if now ≤ e.expiresAt then some e.rawText else none

/-- Claim C3: a `get` immediately after a `put` returns the stored text; the
stored entry has `expiresAt = createdAt + TTL` with the TTL fixed at 24
hours; and a `get` at any time past the expiry behaves as absent without any
prior sweep. -/
theorem cache_ttl_roundtrip (c : TranscriptCache) (now : Nat) (id text : String) :
    cache_get (cache_set c now id text) now id = some text ∧
    cache_set c now id text id = some ⟨text, now, now + CACHE_TTL⟩ ∧
    (∀ later : Nat, now + CACHE_TTL < later →
      cache_get (cache_set c now id text) later id = none) := by
  refine ⟨?_, ?_, ?_⟩
  · simp [cache_get, cache_set]
  · simp [cache_set]
  · intro later h
    simp [cache_get, cache_set]
    omega

/-- Witness for C3: a concrete put/get at time 0 and an expired read. -/
theorem cache_ttl_roundtrip_witness :
    cache_get (cache_set emptyCache 0 "vid" "raw text") 0 "vid" = some "raw text" ∧
    cache_get (cache_set emptyCache 0 "vid" "raw text") 86401 "vid" = none := by
  exact ⟨(cache_ttl_roundtrip emptyCache 0 "vid" "raw text").1,
    (cache_ttl_roundtrip emptyCache 0 "vid" "raw text").2.2 86401 (by decide)⟩

/-- Claim C8: the last `put` wins — `put id X` then `put id Y` then `get id`
returns `Y`, for any cache state and any write times. -/
theorem cache_overwrite_last_put_wins
    (c : TranscriptCache) (t1 t2 : Nat) (id x y : String) :
    cache_get (cache_set (cache_set c t1 id x) t2 id y) t2 id = some y := by
  simp [cache_get, cache_set]

/-- The error detail raised by `endpoints.py` on a cache miss during custom
re-summarization (`src/TRANSCRIPT_CACHE_OPTIMIZATION_COMPLETED.md` lines
80-96). -/
structure ErrorDetail where
  error : String
  message : String
  suggestion : String
deriving DecidableEq

/-- The concrete `transcript_not_found` HTTP 404 detail from
`src/TRANSCRIPT_CACHE_OPTIMIZATION_COMPLETED.md` lines 86-94. -/
def TRANSCRIPT_NOT_FOUND : ErrorDetail :=
  ⟨"transcript_not_found", "저장된 스크립트를 찾을 수 없습니다", "영상을 다시 요약해주세요"⟩

/-- Transcript resolution of the custom re-summarize endpoint, from the code
quoted in `src/TRANSCRIPT_CACHE_OPTIMIZATION_COMPLETED.md` lines 80-96: a
truthy `request.transcript` is used as-is; otherwise the cache is consulted
and a missing (or falsy) result raises the `transcript_not_found` detail.
The cache lookup itself is the spec-modelled `cache_get`. -/
def custom_summarize_transcript (reqTranscript : Option String)
    (c : TranscriptCache) (now : Nat) (id : String) : Except ErrorDetail String :=
  match reqTranscript with
  | some t =>
      if t = "" then
        match cache_get c now id with
        | some ct => if ct = "" then .error TRANSCRIPT_NOT_FOUND else .ok ct
        | none => .error TRANSCRIPT_NOT_FOUND
      else
        .ok t
  | none =>
      match cache_get c now id with
      | some ct => if ct = "" then .error TRANSCRIPT_NOT_FOUND else .ok ct
      | none => .error TRANSCRIPT_NOT_FOUND

/-- Claim C4: when no prior summarize stored a transcript for the id (or its
entry has expired), so that the cache read is absent, re-summarize fails with
exactly the `transcript_not_found` error detail — it neither succeeds on an
empty transcript nor reports a generic failure. -/
theorem resummarize_without_transcript_fails
    (c : TranscriptCache) (now : Nat) (id : String)
    (h : cache_get c now id = none) :
    custom_summarize_transcript none c now id = .error TRANSCRIPT_NOT_FOUND := by
  simp [custom_summarize_transcript, h]

/-- Witness for C4: the empty cache misses and the endpoint reports the
transcript-not-found detail. -/
theorem resummarize_without_transcript_fails_witness :
    custom_summarize_transcript none emptyCache 0 "vid" =
      .error TRANSCRIPT_NOT_FOUND := by
  exact resummarize_without_transcript_fails emptyCache 0 "vid" (by rfl)

/-- Split a character list at newline characters. -/
def splitLinesAux : List Char → List (List Char)
  | [] => [[]]
  | c :: rest =>
      match splitLinesAux rest with
      | [] => if c = '\n' then [[], []] else [[c]]
      | h :: t => if c = '\n' then [] :: h :: t else (c :: h) :: t

/-- Modelled from the spec: the backend parses the single batched LLM
response back into one translation per line (spec 4.8 and design note: \"the
source's batch-translation parsing assumes the backend returns exactly one
translation per input line in order\"); blank lines are dropped. -/
def parseTranslations (response : String) : List String :=
  ((splitLinesAux response.data).filter (fun l => l ≠ [])).map List.asString

/-- Modelled from the spec: the single batched prompt carrying all segments
(spec 4.8: \"implemented as a single LLM call carrying all segments\"),
numbered one per line under a fixed translation instruction. -/
def batchPrompt (segments : List String) : String :=
  "다음 문장들을 한국어로 번역하시오. 한 줄에 하나씩, 입력과 같은 순서로 출력하시오.\n"
    ++ String.intercalate "\n" segments

/-- Failure kinds of the batch translation call (spec 7):
`shapeMismatch` when the parsed response count differs from the input count,
`generationFailed` for an upstream LLM error. -/
inductive TranslateError where
  | shapeMismatch (expected got : Nat)
  | generationFailed (msg : String)
deriving DecidableEq

/-- Modelled from the spec: `translateBatch` (spec 4.8) issues one Gateway
call with the batched prompt and parses the response into exactly
`segments.length` entries; any other count is rejected as a shape mismatch,
never zipped or truncated.  The Gateway is abstracted as a function from
prompt to outcome. -/
def translateBatch (gen : String → Except String String)
    (segments : List String) : Except TranslateError (List String) :=
  match gen (batchPrompt segments) with
  | .error e => .error (.generationFailed e)
  | .ok response =>
      let ts := parseTranslations response
      if ts.length = segments.length then .ok ts
      else .error (.shapeMismatch segments.length ts.length)

/-- Claim C5: a successful `translateBatch` returns exactly as many
translations as input segments, in the backend response's order; and whenever
the backend response parses into a different count the whole call fails with
a shape mismatch carrying both counts — it is never partially accepted. -/
theorem translate_batch_shape (gen : String → Except String String)
    (segments : List String) :
    (∀ ts, translateBatch gen segments = .ok ts →
      ts.length = segments.length ∧
      ∃ response, gen (batchPrompt segments) = .ok response ∧
        ts = parseTranslations response) ∧
    (∀ response, gen (batchPrompt segments) = .ok response →
      (parseTranslations response).length ≠ segments.length →
      translateBatch gen segments =
        .error (.shapeMismatch segments.length (parseTranslations response).length)) := by
  constructor
  · intro ts h
    unfold translateBatch at h
    match hg : gen (batchPrompt segments) with
    | .error e => rw [hg] at h; exact absurd h (by simp)
    | .ok response =>
        rw [hg] at h
        simp only at h
        by_cases hl : (parseTranslations response).length = segments.length
        · rw [if_pos hl] at h
          have hts : ts = parseTranslations response := by
            cases h
            rfl
          exact ⟨by rw [hts, hl], response, rfl, hts⟩
        · rw [if_neg hl] at h
          exact absurd h (by simp)
  · intro response hg hl
    unfold translateBatch
    rw [hg]
    simp only [if_neg hl]

/-- Witness for C5: a two-line response for a one-segment input is rejected
as a 1-versus-2 shape mismatch. -/
theorem translate_batch_shape_witness :
    translateBatch (fun _ => .ok "안녕\n세계") ["Hello"] =
      .error (.shapeMismatch 1 2) := by
  exact (translate_batch_shape (fun _ => .ok "안녕\n세계") ["Hello"]).2
    "안녕\n세계" rfl (by decide)

/-- Outcome of one summarize/re-summarize run: the overview and detail
generation results, each an independent Gateway outcome
(spec 4.6: \"partial results are reported, not hidden\"). -/
structure SummaryOutcome where
  overview : Except String String
  detail : Except String String

/-- Modelled from the spec: the dual generation step of summarize and
re-summarize (spec 4.6 step 3) calls the Gateway for the overview and the
detail prompt independently and records both outcomes; neither call's result
is conditioned on the other's.  Each Gateway call is abstracted as a function
from prompt to outcome. -/
def generate_summaries (genOverview genDetail : String → Except String String)
    (promptOverview promptDetail : String) : SummaryOutcome :=
  ⟨genOverview promptOverview, genDetail promptDetail⟩

/-- Modelled from the spec: the custom re-summarize flow
(`src/TRANSCRIPT_CACHE_OPTIMIZATION_COMPLETED.md` plus spec 4.6
`resummarize`): resolve the transcript (cache-backed), then use a
caller-supplied prompt verbatim when present or recompose via
`create_prompt`, then run the dual generation. -/
def resummarize (c : TranscriptCache) (now : Nat) (id : String)
    (customOverview customDetail : Option String) (category format_type : String)
    (genOverview genDetail : String → Except String String) :
    Except ErrorDetail SummaryOutcome :=
  match custom_summarize_transcript none c now id with
  | .error e => .error e
  | .ok transcript =>
      let promptOverview :=
        customOverview.getD (create_prompt category format_type transcript "overview")
      let promptDetail :=
        customDetail.getD (create_prompt category format_type transcript "detail")
      .ok (generate_summaries genOverview genDetail promptOverview promptDetail)

/-- Claim C6: in the dual overview/detail flow the two Gateway calls are
independent — when exactly one of them fails after the other succeeded, the
returned outcome still carries the successful text next to the failure, for
both directions; the failure neither suppresses nor corrupts the other's
result. -/
theorem dual_generation_independent (c : TranscriptCache) (now : Nat)
    (id : String) (customOverview customDetail : Option String)
    (category format_type transcript : String)
    (genOverview genDetail : String → Except String String)
    (okText errText : String)
    (hc : cache_get c now id = some transcript) (hne : transcript ≠ "") :
    (genOverview (customOverview.getD
        (create_prompt category format_type transcript "overview")) = .ok okText →
      genDetail (customDetail.getD
        (create_prompt category format_type transcript "detail")) = .error errText →
      resummarize c now id customOverview customDetail category format_type
        genOverview genDetail = .ok ⟨.ok okText, .error errText⟩) ∧
    (genOverview (customOverview.getD
        (create_prompt category format_type transcript "overview")) = .error errText →
      genDetail (customDetail.getD
        (create_prompt category format_type transcript "detail")) = .ok okText →
      resummarize c now id customOverview customDetail category format_type
        genOverview genDetail = .ok ⟨.error errText, .ok okText⟩) := by
  have htr : custom_summarize_transcript none c now id = .ok transcript := by
    simp [custom_summarize_transcript, hc, hne]
  constructor
  · intro hov hde
    simp [resummarize, htr, generate_summaries, hov, hde]
  · intro hov hde
    simp [resummarize, htr, generate_summaries, hov, hde]

/-- Witness for C6: a concrete cache with one entry, an overview call that
succeeds and a detail call that fails with a quota error; the successful
overview is still reported. -/
theorem dual_generation_independent_witness :
    resummarize (cache_set emptyCache 0 "vid" "raw") 0 "vid" none none
      "general" "dialogue" (fun _ => .ok "요약") (fun _ => .error "quota") =
      .ok ⟨.ok "요약", .error "quota"⟩ := by
  exact (dual_generation_independent (cache_set emptyCache 0 "vid" "raw") 0 "vid"
    none none "general" "dialogue" "raw" (fun _ => .ok "요약")
    (fun _ => .error "quota") "요약" "quota" (by rfl) (by decide)).1 rfl rfl

/-- One conversation turn as sent to `/api/chat`
(`frontend/src/components/dashboard/ChatPanel.tsx`): a role string
(`user` or `assistant`) and the text content. -/
structure ChatTurn where
  role : String
  content : String
deriving DecidableEq

/-- The request body built by `handleSubmit` in `ChatPanel.tsx` (lines
88-94): the new user message goes into `message`, the prior turns into
`conversation_history`. -/
structure ChatRequest where
  message : String
  conversation_history : List ChatTurn
deriving DecidableEq

/-- `handleSubmit` of `ChatPanel.tsx` (lines 68-109), success path, as a pure
state transition on the `conversationHistory` state: the guard rejects a
blank input; otherwise the user turn is appended locally
(`newHistory`), the request is sent with the *prior* history and the
new message in its own field, and on a successful reply the stored history
becomes `newHistory` plus the assistant turn.  Returns the sent request and
the final stored history. -/
def jsTrim (s : String) : String :=
  ⟨((s.data.dropWhile Char.isWhitespace).reverse.dropWhile Char.isWhitespace).reverse⟩

def chatHandleSubmit (history : List ChatTurn) (input reply : String) :
    Option (ChatRequest × List ChatTurn) :=
  if jsTrim input = "" then none
  else
    let newHistory := history ++ [⟨"user", input⟩]
    some (⟨input, history⟩, newHistory ++ [⟨"assistant", reply⟩])

/-- Claim C9: on every chat submission the `conversation_history` sent with
the request equals exactly the prior turns — the new user message is excluded
from it and sent in the `message` field — and after a successful reply the
stored history is the prior history extended by exactly one user turn
followed by one assistant turn, in insertion order. -/
theorem chat_history_protocol (history : List ChatTurn) (input reply : String)
    (req : ChatRequest) (finalHistory : List ChatTurn)
    (h : chatHandleSubmit history input reply = some (req, finalHistory)) :
    req.conversation_history = history ∧
    req.message = input ∧
    finalHistory = history ++ [⟨"user", input⟩, ⟨"assistant", reply⟩] := by
  unfold chatHandleSubmit at h
  by_cases hg : jsTrim input = ""
  · rw [if_pos hg] at h
    exact absurd h (by simp)
  · rw [if_neg hg] at h
    simp only [Option.some.injEq, Prod.mk.injEq] at h
    obtain ⟨h1, h2⟩ := h
    refine ⟨by rw [← h1], by rw [← h1], ?_⟩
    rw [← h2, List.append_assoc]
    rfl

/-- Witness for C9: a concrete submission with one prior exchange, evaluated
through the theorem. -/
theorem chat_history_protocol_witness :
    ([⟨"user", "hi"⟩, ⟨"assistant", "hello"⟩, ⟨"user", "why?"⟩,
        ⟨"assistant", "because"⟩] : List ChatTurn) =
      [⟨"user", "hi"⟩, ⟨"assistant", "hello"⟩] ++
        [⟨"user", "why?"⟩, ⟨"assistant", "because"⟩] := by
  exact (chat_history_protocol [⟨"user", "hi"⟩, ⟨"assistant", "hello"⟩]
    "why?" "because"
    ⟨"why?", [⟨"user", "hi"⟩, ⟨"assistant", "hello"⟩]⟩
    [⟨"user", "hi"⟩, ⟨"assistant", "hello"⟩, ⟨"user", "why?"⟩,
      ⟨"assistant", "because"⟩]
    (by decide)).2.2

/-- Value of a decimal digit character, `c.charCodeAt(0) - 48` style; this is
what `parseInt(str, 10)` contributes per digit character. -/
def charVal (c : Char) : Nat := c.toNat - '0'.toNat

/-- `parseInt(cs, 10)` restricted to all-digit inputs (the only inputs it
receives in `timestampToSeconds`, which are guarded by the regex): the usual
left fold of decimal digits. -/
def parseIntDigits (cs : List Char) : Nat :=
  cs.foldl (fun acc c => acc * 10 + charVal c) 0

/-- Decimal rendering of a non-negative integer, as JavaScript template
interpolation does for the `minutes` and `remainingSeconds` values of
`secondsToTimestamp` (`frontend/src/utils/timeUtils.ts` lines 36-41):
most-significant digit first, no leading zeros, `0` for zero. -/
def renderNat (n : Nat) : List Char :=
  if n = 0 then ['0'] else ((Nat.digits 10 n).reverse.map Nat.digitChar)

/-- `String.prototype.padStart(2, '0')` on a character list. -/
def padStart2 (cs : List Char) : List Char :=
  if cs.length < 2 then List.replicate (2 - cs.length) '0' ++ cs else cs

/-- `secondsToTimestamp` from `frontend/src/utils/timeUtils.ts` lines 36-41:
`Math.floor(seconds / 60)` rendered in decimal, a colon, then
`Math.floor(seconds % 60)` rendered and left-padded to two digits. -/
def secondsToTimestamp (seconds : Nat) : String :=
  ⟨renderNat (seconds / 60) ++ ':' :: padStart2 (renderNat (seconds % 60))⟩

/-- The regex match of `timestampToSeconds`
(`frontend/src/utils/timeUtils.ts` line 13): a character list matches
`(\d+):(\d\x7b2\x7d)` anchored at both ends exactly when its maximal leading
digit run is nonempty and is followed by a colon and then exactly two digits
ending the input; on a match the two capture groups are returned. -/
def matchTimestamp (cs : List Char) : Option (List Char × List Char) :=
  match cs.dropWhile Char.isDigit with
  | c :: rest =>
      if c = ':' ∧ cs.takeWhile Char.isDigit ≠ [] ∧ rest.length = 2 ∧
          rest.all Char.isDigit then
        some (cs.takeWhile Char.isDigit, rest)
      else none
  | [] => none

/-- `timestampToSeconds` from `frontend/src/utils/timeUtils.ts` lines 11-24:
on a regex match, `parseInt(minutes) * 60 + parseInt(seconds)`; on an invalid
format, `0`. -/
def timestampToSeconds (t : String) : Nat :=
  match matchTimestamp t.data with
  | some (m, s2) => parseIntDigits m * 60 + parseIntDigits s2
  | none => 0

theorem parseIntDigits_append_single (l : List Char) (c : Char) :
    parseIntDigits (l ++ [c]) = parseIntDigits l * 10 + charVal c := by
  simp [parseIntDigits, List.foldl_append]

theorem charVal_digitChar (d : Nat) (h : d < 10) : charVal (Nat.digitChar d) = d := by
  interval_cases d <;> decide

theorem isDigit_digitChar (d : Nat) (h : d < 10) : (Nat.digitChar d).isDigit = true := by
  interval_cases d <;> decide

theorem parseIntDigits_reverse_map (ds : List Nat) (hds : ∀ d ∈ ds, d < 10) :
    parseIntDigits (ds.reverse.map Nat.digitChar) = Nat.ofDigits 10 ds := by
  induction ds with
  | nil => rfl
  | cons d tl ih =>
      rw [List.reverse_cons, List.map_append, List.map_singleton,
        parseIntDigits_append_single,
        ih (fun x hx => hds x (List.mem_cons_of_mem _ hx)),
        charVal_digitChar d (hds d (List.mem_cons_self _ _)), Nat.ofDigits_cons]
      ring

theorem parseIntDigits_renderNat (n : Nat) : parseIntDigits (renderNat n) = n := by
  by_cases h : n = 0
  · subst h
    decide
  · unfold renderNat
    rw [if_neg h,
      parseIntDigits_reverse_map _ (fun d hd => Nat.digits_lt_base (by norm_num) hd)]
    exact Nat.ofDigits_digits 10 n

theorem renderNat_all_digits (n : Nat) :
    ∀ c ∈ renderNat n, c.isDigit = true := by
  intro c hc
  unfold renderNat at hc
  by_cases h : n = 0
  · rw [if_pos h] at hc
    simp only [List.mem_singleton] at hc
    subst hc
    decide
  · rw [if_neg h] at hc
    obtain ⟨d, hd, hdc⟩ := List.mem_map.mp hc
    rw [List.mem_reverse] at hd
    rw [← hdc]
    exact isDigit_digitChar d (Nat.digits_lt_base (by norm_num) hd)

theorem renderNat_ne_nil (n : Nat) : renderNat n ≠ [] := by
  unfold renderNat
  by_cases h : n = 0
  · rw [if_pos h]
    simp
  · rw [if_neg h]
    simp [Nat.digits_ne_nil_iff_ne_zero.mpr h]

theorem renderNat_length_le_two (n : Nat) (h : n < 100) :
    (renderNat n).length ≤ 2 := by
  unfold renderNat
  by_cases h0 : n = 0
  · rw [if_pos h0]
    decide
  · rw [if_neg h0]
    rw [List.length_map, List.length_reverse,
      Nat.digits_len 10 n (by norm_num) h0]
    have : Nat.log 10 n < 2 := Nat.log_lt_of_lt_pow h0 (by norm_num [h])
    omega

theorem foldl_replicate_zeros (k : Nat) (acc0 : List Char) :
    parseIntDigits (List.replicate k '0' ++ acc0) = parseIntDigits acc0 := by
  induction k with
  | zero => rfl
  | succ m ih =>
      rw [List.replicate_succ, List.cons_append]
      show List.foldl _ ((0 : Nat) * 10 + charVal '0') _ = _
      have : (0 : Nat) * 10 + charVal '0' = 0 := by decide
      rw [this]
      exact ih

theorem parseIntDigits_padStart2 (cs : List Char) :
    parseIntDigits (padStart2 cs) = parseIntDigits cs := by
  unfold padStart2
  by_cases h : cs.length < 2
  · rw [if_pos h]
    exact foldl_replicate_zeros _ cs
  · rw [if_neg h]

theorem padStart2_length (cs : List Char) (h : cs.length ≤ 2) :
    (padStart2 cs).length = 2 := by
  unfold padStart2
  by_cases hlt : cs.length < 2
  · rw [if_pos hlt]
    simp only [List.length_append, List.length_replicate]
    omega
  · rw [if_neg hlt]
    omega

theorem padStart2_all_digits (cs : List Char)
    (h : ∀ c ∈ cs, c.isDigit = true) :
    ∀ c ∈ padStart2 cs, c.isDigit = true := by
  intro c hc
  unfold padStart2 at hc
  by_cases hlt : cs.length < 2
  · rw [if_pos hlt] at hc
    rcases List.mem_append.mp hc with hm | hm
    · have := List.eq_of_mem_replicate hm
      subst this
      decide
    · exact h c hm
  · rw [if_neg hlt] at hc
    exact h c hc

theorem takeWhile_digit_run (p : Char → Bool) (A : List Char) (c : Char)
    (B : List Char) (hA : ∀ a ∈ A, p a = true) (hc : p c = false) :
    (A ++ c :: B).takeWhile p = A ∧ (A ++ c :: B).dropWhile p = c :: B := by
  induction A with
  | nil => simp [List.takeWhile, List.dropWhile, hc]
  | cons a as ih =>
      have ha : p a = true := hA a (List.mem_cons_self _ _)
      have has : ∀ x ∈ as, p x = true := fun x hx => hA x (List.mem_cons_of_mem _ hx)
      obtain ⟨ih1, ih2⟩ := ih has
      constructor
      · rw [List.cons_append, List.takeWhile_cons, ha]
        simp [ih1]
      · rw [List.cons_append, List.dropWhile_cons, ha]
        simpa using ih2

/-- Claim C10: converting any number of seconds to an `m:ss` timestamp and
parsing it back is the identity — `timestampToSeconds (secondsToTimestamp s)
= s` for every natural number `s`. -/
theorem timestamp_roundtrip (s : Nat) :
    timestampToSeconds (secondsToTimestamp s) = s := by
  have hmod : s % 60 < 100 := by omega
  have hA := renderNat_all_digits (s / 60)
  have hpadlen : (padStart2 (renderNat (s % 60))).length = 2 :=
    padStart2_length _ (renderNat_length_le_two _ hmod)
  have hpaddig : ∀ c ∈ padStart2 (renderNat (s % 60)), c.isDigit = true :=
    padStart2_all_digits _ (renderNat_all_digits _)
  obtain ⟨htake, hdrop⟩ := takeWhile_digit_run Char.isDigit (renderNat (s / 60))
    ':' (padStart2 (renderNat (s % 60))) hA (by decide)
  unfold timestampToSeconds secondsToTimestamp matchTimestamp
  dsimp only
  rw [hdrop, htake]
  dsimp only
  have hcond : ':' = ':' ∧ renderNat (s / 60) ≠ [] ∧
      (padStart2 (renderNat (s % 60))).length = 2 ∧
      (padStart2 (renderNat (s % 60))).all Char.isDigit = true := by
    refine ⟨rfl, renderNat_ne_nil _, hpadlen, ?_⟩
    simpa [List.all_eq_true] using hpaddig
  rw [if_pos hcond]
  dsimp only
  rw [parseIntDigits_renderNat, parseIntDigits_padStart2, parseIntDigits_renderNat]
  omega

end InsightStream
